import Mathlib

/-!
# Verification of the MdnsScanner core (matter.js)

Shallow embedding of the MdnsScanner class (`src/unnamed/part_000`) of the
matter.js repository: the TXT parser, the address sorter, the record cache with
expiry, the query scheduler with its broadcast fragmentation, and the public
discovery entry points.  JavaScript `Map`s are embedded as insertion-ordered
association lists, `undefined`-able numbers as `Option Int`, and millisecond
clock values as `Int`.
-/

namespace Mdns

/-! ## DNS data model (external codec interface, §6 of the design) -/

inductive DnsRecordType where
  | A
  | AAAA
  | PTR
  | SRV
  | TXT
  | ANY
deriving Repr, DecidableEq

inductive DnsRecordClass where
  | IN
deriving Repr, DecidableEq

structure DnsQuery where
  name : String
  recordType : DnsRecordType
  recordClass : DnsRecordClass
deriving Repr, DecidableEq

inductive DnsMessageType where
  | Query
  | TruncatedQuery
  | Response
  | TruncatedResponse
deriving Repr, DecidableEq

/-! ## Association-list embedding of JavaScript `Map`

`Map.set` keeps an existing key at its position and overwrites its value,
otherwise appends; `Map.delete` removes the key; iteration follows insertion
order. -/

def lookupKey {α : Type} (l : List (String × α)) (k : String) : Option α :=
  (l.find? (fun p => p.1 == k)).map (·.2)

def setKey {α : Type} (l : List (String × α)) (k : String) (v : α) : List (String × α) :=
  if l.any (fun p => p.1 == k) then
    l.map (fun p => if p.1 == k then (k, v) else p)
  else
    l ++ [(k, v)]

def eraseKey {α : Type} (l : List (String × α)) (k : String) : List (String × α) :=
  l.filter (fun p => p.1 != k)

/-! ## TXT parser (`#parseTxtRecord`, lines 976-1005)

A TXT record value is a list of `key=value` strings.  JavaScript
`item.split("=")` with destructuring `[key, value]` yields the first two
segments; `parseInt` is modelled as an optional sign followed by at least one
decimal digit, further characters ignored, `none` for NaN (the whitespace and
`0x` forms of `parseInt` are not produced by these records). -/

/-- Splitting a character list at every occurrence of the separator `c`
(kernel-computable counterpart of JavaScript `String.split` with a one
character separator, which is the only form the scanner uses). -/
def splitCharsOn (c : Char) : List Char → List Char → List (List Char)
  | [], acc => [acc.reverse]
  | x :: xs, acc =>
    if x = c then acc.reverse :: splitCharsOn c xs []
    else splitCharsOn c xs (x :: acc)

def splitOnChar (c : Char) (s : String) : List String :=
  (splitCharsOn c s.data []).map (fun l => String.mk l)

/-- Kernel-computable `String.startsWith`. -/
def startsWithStr (s p : String) : Bool :=
  p.data.isPrefixOf s.data

def digitsToNat (ds : List Char) : Nat :=
  ds.foldl (fun a c => a * 10 + (c.toNat - 48)) 0

def jsParseIntDigits (cs : List Char) : Option Nat :=
  let ds := cs.takeWhile Char.isDigit
  if ds.isEmpty then none else some (digitsToNat ds)

def jsParseInt (s : String) : Option Int :=
  match s.data with
  | '-' :: rest => (jsParseIntDigits rest).map (fun n => -(n : Int))
  | '+' :: rest => (jsParseIntDigits rest).map (fun n => (n : Int))
  | cs => (jsParseIntDigits cs).map (fun n => (n : Int))

/-- The `result` object accumulated by the key/value loop of `#parseTxtRecord`:
every field may still be absent (`undefined`). -/
structure DiscoveryTxtData where
  SII : Option Int := none
  SAI : Option Int := none
  SAT : Option Int := none
  T : Option Int := none
  D : Option Int := none
  CM : Option Int := none
  DT : Option Int := none
  PH : Option Int := none
  ICD : Option Int := none
  VP : Option String := none
  DN : Option String := none
  RI : Option String := none
  PI : Option String := none
deriving Repr, DecidableEq

/-- One iteration of the loop over the TXT items (lines 980-990): integer keys
whose value fails `parseInt` are dropped, unknown keys are ignored. -/
def applyTxtItem (acc : DiscoveryTxtData) (item : String) : DiscoveryTxtData :=
  let parts := splitOnChar '=' item
  match parts.get? 0, parts.get? 1 with
  | some key, some value =>
    if ["SII", "SAI", "SAT", "T", "D", "CM", "DT", "PH", "ICD"].contains key then
      match jsParseInt value with
      | none => acc
      | some intValue =>
        match key with
        | "SII" => { acc with SII := some intValue }
        | "SAI" => { acc with SAI := some intValue }
        | "SAT" => { acc with SAT := some intValue }
        | "T" => { acc with T := some intValue }
        | "D" => { acc with D := some intValue }
        | "CM" => { acc with CM := some intValue }
        | "DT" => { acc with DT := some intValue }
        | "PH" => { acc with PH := some intValue }
        | "ICD" => { acc with ICD := some intValue }
        | _ => acc
    else if ["VP", "DN", "RI", "PI"].contains key then
      match key with
      | "VP" => { acc with VP := some value }
      | "DN" => { acc with DN := some value }
      | "RI" => { acc with RI := some value }
      | "PI" => { acc with PI := some value }
      | _ => acc
    else acc
  | _, _ => acc

def txtFold (value : List String) : DiscoveryTxtData :=
  value.foldl applyTxtItem {}

/-- The result of `#parseTxtRecord` after the defaults of lines 993-1002 have
been applied: `T` and `ICD` are definite numbers. -/
structure DiscoveryData where
  SII : Option Int := none
  SAI : Option Int := none
  SAT : Option Int := none
  D : Option Int := none
  CM : Option Int := none
  DT : Option Int := none
  PH : Option Int := none
  T : Int := 0
  ICD : Int := 0
  VP : Option String := none
  DN : Option String := none
  RI : Option String := none
  PI : Option String := none
deriving Repr, DecidableEq

/-- `#parseTxtRecord` (lines 976-1005) on an array-valued TXT record. -/
def parseTxtRecord (value : List String) : DiscoveryData :=
  let result := txtFold value
  { SII := result.SII, SAI := result.SAI, SAT := result.SAT, D := result.D,
    CM := result.CM, DT := result.DT, PH := result.PH,
    T := match result.T with
         | none => 0
         | some t => if t = 1 then 0 else t,
    ICD := match result.ICD with
           | none => 0
           | some i => i,
    VP := result.VP, DN := result.DN, RI := result.RI, PI := result.PI }

/-! ## Commissionable device records -/

structure CommissionableAddress where
  ip : String
  port : Nat
  discoveredAt : Int
  ttl : Int
deriving Repr, DecidableEq

/-- `CommissionableDeviceRecordWithExpire` (lines 58-65): the cached shape of a
commissionable device.  `instanceId`, `deviceIdentifier`, `SD`, `V`, `P` are
filled in by the commissionable record handler after parsing. -/
structure CommissionableRecord where
  instanceId : String := ""
  deviceIdentifier : String := ""
  D : Option Int := none
  SD : Option Int := none
  CM : Option Int := none
  V : Option Int := none
  P : Option Int := none
  DT : Option Int := none
  SII : Option Int := none
  SAI : Option Int := none
  SAT : Option Int := none
  PH : Option Int := none
  T : Int := 0
  ICD : Int := 0
  VP : Option String := none
  DN : Option String := none
  RI : Option String := none
  PI : Option String := none
  addresses : List (String × CommissionableAddress) := []
  expires : Int := 0
deriving Repr, DecidableEq

/-- `#parseCommissionableTxtRecord` (lines 1007-1017): spread of the parsed TXT
fields over a fresh record with empty addresses and `expires = now + ttl*1000`;
`undefined` when the required `D` or `CM` field is missing. -/
def parseCommissionableTxtRecord (value : List String) (ttl now : Int) :
    Option CommissionableRecord :=
  let parsed := parseTxtRecord value
  let result : CommissionableRecord :=
    { addresses := [], expires := now + ttl * 1000,
      SII := parsed.SII, SAI := parsed.SAI, SAT := parsed.SAT,
      D := parsed.D, CM := parsed.CM, DT := parsed.DT, PH := parsed.PH,
      T := parsed.T, ICD := parsed.ICD,
      VP := parsed.VP, DN := parsed.DN, RI := parsed.RI, PI := parsed.PI }
  if result.D = none ∨ result.CM = none then none else some result

/-- `#extractInstanceId` (lines 483-489): the part of the service instance name
up to the first dot, or the whole name when it has no dot. -/
def extractInstanceId (instanceName : String) : String :=
  (splitOnChar '.' instanceName).headD instanceName

/-- The JavaScript expression `(D >> 8) & 0x0f` of line 877: an arithmetic
right shift is floor division by 256, and masking the four low bits of a
two's-complement value is reduction mod 16 (`Int.ediv`/`%` on `Int` are the
euclidean operations, which agree with that for the divisor 256 and modulus
16). -/
def shortDiscriminatorOf (d : Int) : Int :=
  d.ediv 256 % 16

/-- Lines 874-883 of `#handleCommissionableRecords`: fill in `instanceId` and
`deviceIdentifier` from the record name, derive `SD` from `D` when absent, and
split `VP` into `V` and `P`.  (`parseInt` returning NaN for a malformed `VP`
part is embedded as `none`.) -/
def postProcessCommissionableRecord (name : String) (parsedRecord : CommissionableRecord) :
    CommissionableRecord :=
  let r1 := { parsedRecord with
              instanceId := extractInstanceId name,
              deviceIdentifier := extractInstanceId name }
  let r2 := match r1.D, r1.SD with
            | some d, none => { r1 with SD := some (shortDiscriminatorOf d) }
            | _, _ => r1
  match r2.VP with
  | some vp =>
    let vpValueArr := splitOnChar '+' vp
    { r2 with V := (vpValueArr.get? 0).bind jsParseInt,
              P := (vpValueArr.get? 1).bind jsParseInt }
  | none => r2

/-! ## Claims about the TXT parser -/

/-- C8: the TXT parser defaults `T` to 0 when the key is absent or parses to
the reserved value 1 and `ICD` to 0 when absent, and the commissionable parse
returns no record exactly when the integer key `D` or `CM` is missing from the
payload. -/
theorem txt_parser_defaults_and_required_fields :
    ∀ (value : List String) (ttl now : Int),
      ((txtFold value).T = none → (parseTxtRecord value).T = 0) ∧
      ((txtFold value).T = some 1 → (parseTxtRecord value).T = 0) ∧
      ((txtFold value).ICD = none → (parseTxtRecord value).ICD = 0) ∧
      (parseCommissionableTxtRecord value ttl now = none ↔
        ((txtFold value).D = none ∨ (txtFold value).CM = none)) := by
  intro value ttl now
  refine ⟨?_, ?_, ?_, ?_⟩
  · intro h; simp [parseTxtRecord, h]
  · intro h; simp [parseTxtRecord, h]
  · intro h; simp [parseTxtRecord, h]
  · rcases hD : (txtFold value).D with _ | d <;>
      rcases hCM : (txtFold value).CM with _ | cm <;>
      simp [parseCommissionableTxtRecord, parseTxtRecord, hD, hCM]

theorem txt_parser_defaults_and_required_fields_witness :
    (parseTxtRecord ["CM=2"]).T = 0 ∧ (parseTxtRecord ["CM=2"]).ICD = 0 ∧
      parseCommissionableTxtRecord ["CM=2"] 120 0 = none ∧
      (parseTxtRecord ["T=1", "D=5", "CM=0"]).T = 0 := by
  have h1 := txt_parser_defaults_and_required_fields ["CM=2"] 120 0
  have h2 := txt_parser_defaults_and_required_fields ["T=1", "D=5", "CM=0"] 120 0
  exact ⟨h1.1 (by decide), h1.2.2.1 (by decide), h1.2.2.2.mpr (Or.inl (by decide)),
    h2.2.1 (by decide)⟩

/-- C3 counterexample: a commissionable TXT record carrying `D=3840` and no
`SD` is cached with `SD = (3840 >> 8) & 0x0F = 15 (0xF)`, not `0x0` as the
claim computes. -/
theorem short_discriminator_of_3840_not_zero :
    (parseCommissionableTxtRecord ["D=3840", "CM=1"] 120 0).map
        (fun p => (postProcessCommissionableRecord "ABC._matterc._udp.local" p).SD)
      = some (some 15) ∧ (some (15 : Int)) ≠ (some (0 : Int)) := by
  exact ⟨by decide, by decide⟩

/-- C3 (amended): for every commissionable TXT record containing key `D` but
no key `SD`, the cached record's `SD` is derived as `(D >> 8) & 0x0F`; for the
concrete input `D=3840` the cached value is `SD = (3840 >> 8) & 0xF = 0xF`
(15). -/
theorem short_discriminator_derivation :
    (∀ (name : String) (p : CommissionableRecord) (d : Int),
        p.D = some d → p.SD = none →
        (postProcessCommissionableRecord name p).SD = some (shortDiscriminatorOf d)) ∧
    (parseCommissionableTxtRecord ["D=3840", "CM=1"] 120 0).map
        (fun p => (postProcessCommissionableRecord "ABC._matterc._udp.local" p).SD)
      = some (some 15) := by
  constructor
  · intro name p d hD hSD
    cases hVP : p.VP <;> simp [postProcessCommissionableRecord, hD, hSD, hVP]
  · decide

theorem short_discriminator_derivation_witness :
    (postProcessCommissionableRecord "ABC._matterc._udp.local"
        { D := some 3840, CM := some 1 }).SD = some (shortDiscriminatorOf 3840) := by
  exact short_discriminator_derivation.1 "ABC._matterc._udp.local"
    { D := some 3840, CM := some 1 } 3840 rfl rfl

/-! ## Address sorter (`#sortServerEntries`, lines 284-306)

The comparator only reads the `ip` field of an entry, so the embedding takes
the `ip` projection as a parameter and works for both address record types.
`isIPv6` is an external helper of the repository and is kept abstract.
`Array.prototype.sort` is required by ECMAScript to be stable; it is embedded
as a stable insertion sort driven by the source's comparator. -/

def sortComparator (isV6 : String → Bool) (aIp bIp : String) : Int :=
  let aIsIPv6 := isV6 aIp
  let bIsIPv6 := isV6 bIp
  if aIsIPv6 && !bIsIPv6 then -1
  else if !aIsIPv6 && bIsIPv6 then 1
  else if aIsIPv6 && bIsIPv6 then
    if startsWithStr aIp "fd" && !(startsWithStr bIp "fd") then -1
    else if !(startsWithStr aIp "fd") && startsWithStr bIp "fd" then 1
    else if startsWithStr aIp "fe80:" && !(startsWithStr bIp "fe80:") then -1
    else if !(startsWithStr aIp "fe80:") && startsWithStr bIp "fe80:" then 1
    else 0
  else 0

/-- Stable insertion of `x` into a sorted list: `x` is placed before the first
element the comparator does not order strictly before it, so elements that
arrived earlier and compare equal keep their position. -/
def sortInsert {α : Type} (cmp : α → α → Int) (x : α) : List α → List α
  | [] => [x]
  | y :: ys => if cmp x y > 0 then y :: sortInsert cmp x ys else x :: y :: ys

def sortServerEntries {α : Type} (isV6 : String → Bool) (ipOf : α → String)
    (entries : List α) : List α :=
  entries.foldr (sortInsert (fun a b => sortComparator isV6 (ipOf a) (ipOf b))) []

/-- The rank the comparator realises: 1 = IPv6 unique-local (`fd…`),
2 = IPv6 link-local (`fe80:…`), 3 = other IPv6, 4 = IPv4. -/
def addrRank (isV6 : String → Bool) (ip : String) : Nat :=
  if isV6 ip then
    if startsWithStr ip "fd" then 1
    else if startsWithStr ip "fe80:" then 2
    else 3
  else 4

theorem isPrefixOf_fd_fe80 (l : List Char) :
    ¬(List.isPrefixOf ['f', 'd'] l = true ∧
      List.isPrefixOf ['f', 'e', '8', '0', ':'] l = true) := by
  rintro ⟨h1, h2⟩
  cases l with
  | nil => simp [List.isPrefixOf] at h1
  | cons a t =>
    cases t with
    | nil => simp [List.isPrefixOf] at h1
    | cons b t2 =>
      simp only [List.isPrefixOf, Bool.and_eq_true, beq_iff_eq, and_true] at h1 h2
      have hb1 : 'd' = b := h1.2
      have hb2 : 'e' = b := h2.2.1
      rw [← hb1] at hb2
      exact absurd hb2 (by decide)

/-- No address literal is at once IPv6 unique-local (`fd…`) and link-local
(`fe80:…`): the two name distinct comparator ranks. -/
theorem fd_fe80_exclusive (ip : String) :
    ¬(startsWithStr ip "fd" = true ∧ startsWithStr ip "fe80:" = true) := by
  have hfd : ("fd" : String).data = ['f', 'd'] := rfl
  have hfe : ("fe80:" : String).data = ['f', 'e', '8', '0', ':'] := rfl
  unfold startsWithStr
  rw [hfd, hfe]
  exact isPrefixOf_fd_fe80 ip.data

theorem sortComparator_pos_iff (isV6 : String → Bool) (a b : String) :
    sortComparator isV6 a b > 0 ↔ addrRank isV6 b < addrRank isV6 a := by
  cases h1 : isV6 a <;> cases h2 : isV6 b <;>
    cases h3 : startsWithStr a "fd" <;> cases h4 : startsWithStr b "fd" <;>
    cases h5 : startsWithStr a "fe80:" <;> cases h6 : startsWithStr b "fe80:" <;>
    simp [sortComparator, addrRank, h1, h2, h3, h4, h5, h6] <;>
    first
      | decide
      | exact (fd_fe80_exclusive a ⟨h3, h5⟩).elim
      | exact (fd_fe80_exclusive b ⟨h4, h6⟩).elim

theorem addrRank_cases (isV6 : String → Bool) (ip : String) :
    addrRank isV6 ip = 1 ∨ addrRank isV6 ip = 2 ∨ addrRank isV6 ip = 3 ∨
      addrRank isV6 ip = 4 := by
  unfold addrRank
  split_ifs <;> simp

theorem sortInsert_middle {α : Type} (cmp : α → α → Int) (x : α) :
    ∀ (L M : List α), (∀ y ∈ L, cmp x y > 0) → (∀ y ∈ M, ¬ (cmp x y > 0)) →
      sortInsert cmp x (L ++ M) = L ++ x :: M := by
  intro L
  induction L with
  | nil =>
    intro M _ hM
    cases M with
    | nil => rfl
    | cons y ys =>
      have hy : ¬ (cmp x y > 0) := hM y (List.mem_cons_self _ _)
      simp [sortInsert, hy]
  | cons y L ih =>
    intro M hL hM
    have hy : cmp x y > 0 := hL y (List.mem_cons_self _ _)
    rw [List.cons_append]
    simp only [sortInsert]
    rw [if_pos hy, List.cons_append]
    exact congrArg (y :: ·) (ih M (fun z hz => hL z (List.mem_cons_of_mem _ hz)) hM)

theorem sortInsert_blocks {α : Type} (cmp : α → α → Int) (rank : α → Nat)
    (hcmp : ∀ a b, cmp a b > 0 ↔ rank b < rank a) (x : α) (B1 B2 B3 B4 : List α)
    (h1 : ∀ y ∈ B1, rank y = 1) (h2 : ∀ y ∈ B2, rank y = 2)
    (h3 : ∀ y ∈ B3, rank y = 3) (h4 : ∀ y ∈ B4, rank y = 4)
    (hx : rank x = 1 ∨ rank x = 2 ∨ rank x = 3 ∨ rank x = 4) :
    sortInsert cmp x (B1 ++ B2 ++ B3 ++ B4) =
      (if rank x = 1 then x :: B1 else B1) ++ (if rank x = 2 then x :: B2 else B2) ++
      (if rank x = 3 then x :: B3 else B3) ++ (if rank x = 4 then x :: B4 else B4) := by
  have gt_of : ∀ y, rank y < rank x → cmp x y > 0 := fun y h => (hcmp x y).mpr h
  have not_gt : ∀ y, ¬ (rank y < rank x) → ¬ (cmp x y > 0) :=
    fun y h hc => h ((hcmp x y).mp hc)
  rcases hx with hx | hx | hx | hx
  · rw [if_pos hx, if_neg (by omega), if_neg (by omega), if_neg (by omega)]
    have hM : ∀ y ∈ B1 ++ B2 ++ B3 ++ B4, ¬ (cmp x y > 0) := by
      intro y hy
      apply not_gt
      rcases List.mem_append.mp hy with h | h
      · rcases List.mem_append.mp h with h | h
        · rcases List.mem_append.mp h with h | h
          · have := h1 y h; omega
          · have := h2 y h; omega
        · have := h3 y h; omega
      · have := h4 y h; omega
    have h := sortInsert_middle cmp x [] (B1 ++ B2 ++ B3 ++ B4)
      (by intro y hy; exact absurd hy (List.not_mem_nil y)) hM
    simpa using h
  · rw [if_neg (by omega), if_pos hx, if_neg (by omega), if_neg (by omega)]
    have hL : ∀ y ∈ B1, cmp x y > 0 := by
      intro y hy; exact gt_of y (by have := h1 y hy; omega)
    have hM : ∀ y ∈ B2 ++ B3 ++ B4, ¬ (cmp x y > 0) := by
      intro y hy
      apply not_gt
      rcases List.mem_append.mp hy with h | h
      · rcases List.mem_append.mp h with h | h
        · have := h2 y h; omega
        · have := h3 y h; omega
      · have := h4 y h; omega
    have h := sortInsert_middle cmp x B1 (B2 ++ B3 ++ B4) hL hM
    simpa [List.append_assoc] using h
  · rw [if_neg (by omega), if_neg (by omega), if_pos hx, if_neg (by omega)]
    have hL : ∀ y ∈ B1 ++ B2, cmp x y > 0 := by
      intro y hy
      rcases List.mem_append.mp hy with h | h
      · exact gt_of y (by have := h1 y h; omega)
      · exact gt_of y (by have := h2 y h; omega)
    have hM : ∀ y ∈ B3 ++ B4, ¬ (cmp x y > 0) := by
      intro y hy
      apply not_gt
      rcases List.mem_append.mp hy with h | h
      · have := h3 y h; omega
      · have := h4 y h; omega
    have h := sortInsert_middle cmp x (B1 ++ B2) (B3 ++ B4) hL hM
    simpa [List.append_assoc] using h
  · rw [if_neg (by omega), if_neg (by omega), if_neg (by omega), if_pos hx]
    have hL : ∀ y ∈ B1 ++ B2 ++ B3, cmp x y > 0 := by
      intro y hy
      rcases List.mem_append.mp hy with h | h
      · rcases List.mem_append.mp h with h | h
        · exact gt_of y (by have := h1 y h; omega)
        · exact gt_of y (by have := h2 y h; omega)
      · exact gt_of y (by have := h3 y h; omega)
    have hM : ∀ y ∈ B4, ¬ (cmp x y > 0) := by
      intro y hy
      apply not_gt
      have := h4 y hy; omega
    have h := sortInsert_middle cmp x (B1 ++ B2 ++ B3) B4 hL hM
    simpa [List.append_assoc] using h

/-- C9: for any input list, the address sorter returns the IPv6 unique-local
addresses (`fd…`) first, the IPv6 link-local addresses (`fe80:…`) second, the
other IPv6 addresses third and the IPv4 addresses last, each group keeping the
relative input order (the output is exactly the concatenation of the four
rank-filtered sublists in input order). -/
theorem sort_server_entries_rank_order {α : Type} (isV6 : String → Bool)
    (ipOf : α → String) (l : List α) :
    sortServerEntries isV6 ipOf l =
      (l.filter fun a => addrRank isV6 (ipOf a) == 1) ++
      (l.filter fun a => addrRank isV6 (ipOf a) == 2) ++
      (l.filter fun a => addrRank isV6 (ipOf a) == 3) ++
      (l.filter fun a => addrRank isV6 (ipOf a) == 4) := by
  induction l with
  | nil => rfl
  | cons x l ih =>
    have step : sortServerEntries isV6 ipOf (x :: l) =
        sortInsert (fun a b => sortComparator isV6 (ipOf a) (ipOf b)) x
          (sortServerEntries isV6 ipOf l) := rfl
    rw [step, ih]
    rw [sortInsert_blocks (fun a b => sortComparator isV6 (ipOf a) (ipOf b))
          (fun a => addrRank isV6 (ipOf a))
          (fun a b => sortComparator_pos_iff isV6 (ipOf a) (ipOf b)) x _ _ _ _
          (fun y hy => by simpa using (List.mem_filter.mp hy).2)
          (fun y hy => by simpa using (List.mem_filter.mp hy).2)
          (fun y hy => by simpa using (List.mem_filter.mp hy).2)
          (fun y hy => by simpa using (List.mem_filter.mp hy).2)
          (addrRank_cases isV6 (ipOf x))]
    simp [List.filter_cons]

/-! ## Commissionable device queries (`#getCommissionableDeviceRecords`,
lines 408-443) -/

/-- The `CommissionableDeviceIdentifiers` union, by the keys the dispatch
chains test in order; `empty` is the identifier object with no keys ("any
commissioning device"). -/
inductive CommissionableDeviceIdent where
  | instanceId (instanceId : String)
  | longDiscriminator (longDiscriminator : Int)
  | shortDiscriminator (shortDiscriminator : Int)
  | vendorProduct (vendorId productId : Int)
  | vendor (vendorId : Int)
  | deviceType (deviceType : Int)
  | product (productId : Int)
  | empty
deriving Repr, DecidableEq

/-- The `foundRecords` computation of `#getCommissionableDeviceRecords`
(lines 411-430).  A JavaScript strict comparison of a possibly-`undefined`
field with a number is `Option` equality with `some`. -/
def selectCommissionableRecords (identifier : CommissionableDeviceIdent)
    (storedRecords : List CommissionableRecord) : List CommissionableRecord :=
  match identifier with
  | .instanceId i => storedRecords.filter fun r => r.instanceId == i
  | .longDiscriminator n => storedRecords.filter fun r => r.D == some n
  | .shortDiscriminator n => storedRecords.filter fun r => r.SD == some n
  | .vendorProduct v p => storedRecords.filter fun r => r.V == some v && r.P == some p
  | .vendor v => storedRecords.filter fun r => r.V == some v
  | .deviceType dt => storedRecords.filter fun r => r.DT == some dt
  | .product p => storedRecords.filter fun r => r.P == some p
  | .empty => storedRecords.filter fun r => r.CM == some 1 || r.CM == some 2

structure ServerAddressIp where
  ip : String
  port : Nat
deriving Repr, DecidableEq

/-- A returned commissionable device: the cached record together with its
sorted, expiry-stripped address list (lines 432-442). -/
structure CommissionableDeviceOut where
  record : CommissionableRecord
  addresses : List ServerAddressIp
deriving Repr, DecidableEq

def getCommissionableDeviceRecords (isV6 : String → Bool)
    (identifier : CommissionableDeviceIdent)
    (storedRecords : List CommissionableRecord) : List CommissionableDeviceOut :=
  (selectCommissionableRecords identifier storedRecords).map fun record =>
    { record := record,
      addresses :=
        (sortServerEntries isV6 CommissionableAddress.ip
            (record.addresses.map (·.2))).map
          (fun a => { ip := a.ip, port := a.port }) }

/-- C10: the empty identifier ("any commissioning device") selects exactly the
cached records whose commissioning mode `CM` is 1 or 2; a record with `CM = 0`
is never selected by the empty identifier, yet is selected, when it matches,
by every other identifier kind (instance id, long/short discriminator,
vendor+product, vendor, device type, product). -/
theorem commissionable_empty_identifier_filters_cm :
    ∀ (isV6 : String → Bool) (stored : List CommissionableRecord)
      (r : CommissionableRecord),
      ((getCommissionableDeviceRecords isV6 .empty stored).map (fun o => o.record) =
        stored.filter fun s => s.CM == some 1 || s.CM == some 2) ∧
      (r ∈ selectCommissionableRecords .empty stored ↔
        r ∈ stored ∧ (r.CM = some 1 ∨ r.CM = some 2)) ∧
      (r.CM = some 0 → r ∉ selectCommissionableRecords .empty stored) ∧
      (r ∈ stored → r ∈ selectCommissionableRecords (.instanceId r.instanceId) stored) ∧
      (∀ d, r.D = some d → r ∈ stored →
        r ∈ selectCommissionableRecords (.longDiscriminator d) stored) ∧
      (∀ sd, r.SD = some sd → r ∈ stored →
        r ∈ selectCommissionableRecords (.shortDiscriminator sd) stored) ∧
      (∀ v p, r.V = some v → r.P = some p → r ∈ stored →
        r ∈ selectCommissionableRecords (.vendorProduct v p) stored) ∧
      (∀ v, r.V = some v → r ∈ stored →
        r ∈ selectCommissionableRecords (.vendor v) stored) ∧
      (∀ dt, r.DT = some dt → r ∈ stored →
        r ∈ selectCommissionableRecords (.deviceType dt) stored) ∧
      (∀ p, r.P = some p → r ∈ stored →
        r ∈ selectCommissionableRecords (.product p) stored) := by
  intro isV6 stored r
  refine ⟨?_, ?_, ?_, ?_, ?_, ?_, ?_, ?_, ?_, ?_⟩
  · have hid : ∀ (l : List CommissionableRecord),
        (l.map fun record =>
          ({ record := record,
             addresses :=
               (sortServerEntries isV6 CommissionableAddress.ip
                   (record.addresses.map (·.2))).map
                 (fun a => { ip := a.ip, port := a.port }) } :
            CommissionableDeviceOut)).map (fun o => o.record) = l := by
      intro l
      rw [List.map_map]
      exact List.map_id _
    exact hid _
  · simp [selectCommissionableRecords, List.mem_filter]
  · intro h hmem
    have hf := (List.mem_filter.mp hmem).2
    rw [h] at hf
    exact absurd hf (by decide)
  · intro h
    exact List.mem_filter.mpr ⟨h, by simp⟩
  · intro d hd h
    exact List.mem_filter.mpr ⟨h, by simp [hd]⟩
  · intro sd hsd h
    exact List.mem_filter.mpr ⟨h, by simp [hsd]⟩
  · intro v p hv hp h
    exact List.mem_filter.mpr ⟨h, by simp [hv, hp]⟩
  · intro v hv h
    exact List.mem_filter.mpr ⟨h, by simp [hv]⟩
  · intro dt hdt h
    exact List.mem_filter.mpr ⟨h, by simp [hdt]⟩
  · intro p hp h
    exact List.mem_filter.mpr ⟨h, by simp [hp]⟩

theorem commissionable_empty_identifier_filters_cm_witness :
    ({ instanceId := "ABCD", D := some 5, SD := some 3, CM := some 0, V := some 7,
       P := some 9, DT := some 11 } : CommissionableRecord) ∉
        selectCommissionableRecords .empty
          [{ instanceId := "ABCD", D := some 5, SD := some 3, CM := some 0,
             V := some 7, P := some 9, DT := some 11 }] ∧
    ({ instanceId := "ABCD", D := some 5, SD := some 3, CM := some 0, V := some 7,
       P := some 9, DT := some 11 } : CommissionableRecord) ∈
        selectCommissionableRecords (.longDiscriminator 5)
          [{ instanceId := "ABCD", D := some 5, SD := some 3, CM := some 0,
             V := some 7, P := some 9, DT := some 11 }] := by
  have h := commissionable_empty_identifier_filters_cm (fun _ => true)
    [{ instanceId := "ABCD", D := some 5, SD := some 3, CM := some 0,
       V := some 7, P := some 9, DT := some 11 }]
    { instanceId := "ABCD", D := some 5, SD := some 3, CM := some 0,
      V := some 7, P := some 9, DT := some 11 }
  exact ⟨h.2.2.1 rfl, h.2.2.2.2.1 5 rfl (by simp)⟩

/-! ## Query identifiers and the public discovery entry points -/

/-- Modelled from the spec: the name constants and sub-service QName helpers
of `MdnsConsts.js`, which is not among the given sources; spec §6 "Name
constants" gives their exact shapes. -/
def MATTER_COMMISSION_SERVICE_QNAME : String := "_matterc._udp.local"

def getDeviceInstanceQname (instanceId : String) : String :=
  instanceId ++ "._matterc._udp.local"

def getLongDiscriminatorQname (longDiscriminator : Int) : String :=
  "_L" ++ toString longDiscriminator ++ "._sub._matterc._udp.local"

def getShortDiscriminatorQname (shortDiscriminator : Int) : String :=
  "_S" ++ toString shortDiscriminator ++ "._sub._matterc._udp.local"

def getVendorQname (vendorId : Int) : String :=
  "_V" ++ toString vendorId ++ "._sub._matterc._udp.local"

def getDeviceTypeQname (deviceType : Int) : String :=
  "_T" ++ toString deviceType ++ "._sub._matterc._udp.local"

def getCommissioningModeQname : String :=
  "_CM._sub._matterc._udp.local"

/-- `#buildCommissionableQueryIdentifier` (lines 449-481). -/
def buildCommissionableQueryIdentifier (identifier : CommissionableDeviceIdent) : String :=
  match identifier with
  | .instanceId i => getDeviceInstanceQname i
  | .longDiscriminator n => getLongDiscriminatorQname n
  | .shortDiscriminator n => getShortDiscriminatorQname n
  | .vendorProduct v p => "_VP" ++ toString v ++ "+" ++ toString p
  | .vendor v => getVendorQname v
  | .deviceType dt => getDeviceTypeQname dt
  | .product p => "_P" ++ toString p
  | .empty => getCommissioningModeQname

inductive ScannerError where
  | implementationError (message : String)
deriving Repr, DecidableEq

/-- The closing guard of `findOperationalDevice` (lines 360-368): the only
statement of the function that can run before the cache read. -/
def findOperationalDeviceCheck (closing : Bool) : Except ScannerError Unit :=
  if closing then
    .error (.implementationError "Cannot discover operational device because scanner is closing.")
  else
    .ok ()

/-- The choice `findCommissionableDevices` (lines 585-605) makes before any
awaiting: return the cached records, or register a waiter and install the
queries for the built query identifier.  The function body contains no check
of the `closing` flag, so the flag is taken and ignored here exactly as the
source ignores it. -/
inductive FindCommissionableAction where
  | returnStored (records : List CommissionableRecord)
  | registerAndWait (queryId : String)
deriving Repr, DecidableEq

def findCommissionableDevicesStep (closing : Bool) (ignoreExistingRecords : Bool)
    (identifier : CommissionableDeviceIdent)
    (stored : List CommissionableRecord) : Except ScannerError FindCommissionableAction :=
  let _ := closing
  let storedRecords :=
    if ignoreExistingRecords then []
    else (selectCommissionableRecords identifier stored).filter
      fun r => !r.addresses.isEmpty
  if storedRecords.isEmpty then
    .ok (.registerAndWait (buildCommissionableQueryIdentifier identifier))
  else
    .ok (.returnStored storedRecords)

def isImplementationError {α : Type} : Except ScannerError α → Bool
  | .error (.implementationError _) => true
  | .ok _ => false

/-- C5: the claim that every public discovery call after `close()` throws
`ImplementationError` holds for `findOperationalDevice` but not for
`findCommissionableDevices`: with the closing flag set the former throws while
the latter never produces an `ImplementationError` for any arguments (it reads
the cache and, on a miss, even registers a waiter and a query). -/
theorem find_commissionable_after_close_does_not_throw :
    ∀ (ignoreExistingRecords : Bool) (identifier : CommissionableDeviceIdent)
      (stored : List CommissionableRecord),
      isImplementationError (findOperationalDeviceCheck true) = true ∧
      isImplementationError
        (findCommissionableDevicesStep true ignoreExistingRecords identifier stored)
        = false := by
  intro ignoreExistingRecords identifier stored
  constructor
  · rfl
  · unfold findCommissionableDevicesStep
    split <;> (dsimp only; split <;> rfl)

/-! ## The streaming discovery loop (`findCommissionableDevicesContinuously`,
lines 613-655) and the waiter registry (`#registerWaiterPromise`,
lines 312-325) -/

/-- `Math.ceil((a : Int) / (b : Int))` for a positive divisor: the ceiling of
the rational quotient, `-((-a) fdiv b)`. -/
def jsCeilDiv (a b : Int) : Int :=
  -((-a).ediv b)

/-- Lines 645-652, one loop iteration's decision: `none` when the loop breaks
because the remaining time is exhausted, otherwise `some t` where `t` is the
`timeoutSeconds` value handed to `#registerWaiterPromise`.  The source
declares an outer `let remainingTime;` (uninitialised, hence `undefined`) and
then, inside the `if`, a `const remainingTime` that shadows it, so the value
awaited with is the outer, still-`undefined` variable. -/
def continuousLoopAwaitTimeout (discoveryEndTime : Option Int) (now : Int) :
    Option (Option Int) :=
  let remainingTime : Option Int := none
  match discoveryEndTime with
  | some endTime =>
    let remainingTimeInner := jsCeilDiv (endTime - now) 1000
    if remainingTimeInner ≤ 0 then none
    else some remainingTime
  | none => some remainingTime

/-- `#registerWaiterPromise` (lines 312-325): a timeout timer exists exactly
when `timeoutSeconds` is defined; without it the promise can only be resolved
by a record arrival or cancellation. -/
def registerWaiterHasTimer (timeoutSeconds : Option Int) : Bool :=
  timeoutSeconds.isSome

/-- C4: contrary to the claim, every waiter awaited inside the loop of
`findCommissionableDevicesContinuously` is registered with an `undefined`
timeout — the inner `const remainingTime` shadows the outer variable — so the
registered waiter has no timer at all and the await is not bounded by the
remaining discovery time. -/
theorem continuous_discovery_waiter_has_no_timeout :
    ∀ (discoveryEndTime : Option Int) (now : Int) (t : Option Int),
      continuousLoopAwaitTimeout discoveryEndTime now = some t →
      t = none ∧ registerWaiterHasTimer t = false := by
  intro discoveryEndTime now t h
  cases discoveryEndTime with
  | none =>
    simp [continuousLoopAwaitTimeout] at h
    simp [← h, registerWaiterHasTimer]
  | some endTime =>
    simp [continuousLoopAwaitTimeout] at h
    rcases h with ⟨-, h⟩
    simp [← h, registerWaiterHasTimer]

theorem continuous_discovery_waiter_has_no_timeout_witness :
    (none : Option Int) = none ∧ registerWaiterHasTimer none = false := by
  exact continuous_discovery_waiter_has_no_timeout (some 10000) 0 none (by decide)

/-! ## Query scheduler (`#sendQueries` / `#setQueryRecords`, lines 129-255)

Intervals are kept in milliseconds (`1.5 s = 1500 ms`; the source stores
seconds and multiplies by 1000 when arming the timer, which is the same
arithmetic).  Known answers are opaque to the scheduler and embedded as
identifiers. -/

structure QueryEntry where
  queries : List DnsQuery
  answers : List Nat
deriving Repr, DecidableEq

structure SchedState where
  activeAnnounceQueries : List (String × QueryEntry)
  nextAnnounceIntervalMs : Nat
deriving Repr, DecidableEq

/-- `START_ANNOUNCE_INTERVAL_SECONDS = 1.5` (line 73), in milliseconds. -/
def START_ANNOUNCE_INTERVAL_MS : Nat := 1500

/-- Lines 149-150: the interval doubles, capped at one hour. -/
def stepAnnounceInterval (i : Nat) : Nat :=
  min (2 * i) 3600000

/-- The scheduling part of `#sendQueries` (lines 135-151): the timer for the
next broadcast is armed with the current interval, then the interval doubles
up to the cap.  Returns the delay of the armed timer together with the new
state. -/
def sendQueriesSched (st : SchedState) : Nat × SchedState :=
  (st.nextAnnounceIntervalMs,
   { st with nextAnnounceIntervalMs := stepAnnounceInterval st.nextAnnounceIntervalMs })

def schedIter (st : SchedState) : Nat → SchedState
  | 0 => st
  | n + 1 => (sendQueriesSched (schedIter st n)).2

/-- `#setQueryRecords` (lines 208-236).  Returns the new state and `some d`
when a broadcast timer with delay `d` ms was armed, `none` when the call was a
no-op because every query triple was already active. -/
def setQueryRecords (st : SchedState) (queryId : String) (queries : List DnsQuery)
    (answers : List Nat) : SchedState × Option Nat :=
  match lookupKey st.activeAnnounceQueries queryId with
  | some activeExistingQuery =>
    let newQueries := queries.filter fun query =>
      !(activeExistingQuery.queries.any fun existingQuery =>
        existingQuery.name == query.name &&
        existingQuery.recordType == query.recordType &&
        existingQuery.recordClass == query.recordClass)
    if newQueries.isEmpty then (st, none)
    else
      ({ activeAnnounceQueries := setKey st.activeAnnounceQueries queryId
           { queries := newQueries ++ activeExistingQuery.queries,
             answers := activeExistingQuery.answers ++ answers },
         nextAnnounceIntervalMs := START_ANNOUNCE_INTERVAL_MS }, some 0)
  | none =>
    ({ activeAnnounceQueries := setKey st.activeAnnounceQueries queryId
         { queries := queries, answers := answers },
       nextAnnounceIntervalMs := START_ANNOUNCE_INTERVAL_MS }, some 0)

/-- The re-announce condition of `#setQueryRecords`: a fresh `queryId`, or at
least one `(name, recordType, recordClass)` triple not already active. -/
def hasNewQueryTriple (st : SchedState) (queryId : String)
    (queries : List DnsQuery) : Bool :=
  match lookupKey st.activeAnnounceQueries queryId with
  | some activeExistingQuery =>
    !(queries.filter fun query =>
      !(activeExistingQuery.queries.any fun existingQuery =>
        existingQuery.name == query.name &&
        existingQuery.recordType == query.recordType &&
        existingQuery.recordClass == query.recordClass)).isEmpty
  | none => true

theorem schedIter_interval (st : SchedState)
    (h : st.nextAnnounceIntervalMs = START_ANNOUNCE_INTERVAL_MS) :
    ∀ n, (schedIter st n).nextAnnounceIntervalMs = min (1500 * 2 ^ n) 3600000 := by
  intro n
  induction n with
  | zero =>
    rw [pow_zero, mul_one]
    rw [show schedIter st 0 = st from rfl, h]
    rfl
  | succ n ih =>
    rw [show schedIter st (n + 1) = (sendQueriesSched (schedIter st n)).2 from rfl]
    simp only [sendQueriesSched, stepAnnounceInterval]
    rw [ih, pow_succ, ← mul_assoc]
    generalize (1500 : Nat) * 2 ^ n = a
    omega

/-- C6: after a reset, the successive broadcast delays are 1.5 s, 3 s, 6 s, …,
doubling each time up to the cap of 3600 s (the n-th armed delay is
`min (1500·2^n, 3600000)` ms); a `setQueryRecords` call that adds at least one
new `(name, recordType, recordClass)` triple resets the interval to 1.5 s and
arms an immediate (0 ms) broadcast, while a call adding none is a no-op. -/
theorem broadcast_backoff_law :
    ∀ (st : SchedState) (n : Nat) (queryId : String) (queries : List DnsQuery)
      (answers : List Nat),
      (st.nextAnnounceIntervalMs = START_ANNOUNCE_INTERVAL_MS →
        (sendQueriesSched (schedIter st n)).1 = min (1500 * 2 ^ n) 3600000) ∧
      (hasNewQueryTriple st queryId queries = true →
        (setQueryRecords st queryId queries answers).2 = some 0 ∧
        (setQueryRecords st queryId queries answers).1.nextAnnounceIntervalMs =
          START_ANNOUNCE_INTERVAL_MS) ∧
      (hasNewQueryTriple st queryId queries = false →
        setQueryRecords st queryId queries answers = (st, none)) := by
  intro st n queryId queries answers
  refine ⟨?_, ?_, ?_⟩
  · intro h
    exact schedIter_interval st h n
  · intro h
    unfold hasNewQueryTriple at h
    unfold setQueryRecords
    cases hl : lookupKey st.activeAnnounceQueries queryId with
    | none => exact ⟨rfl, rfl⟩
    | some ex =>
      rw [hl] at h
      simp only [Bool.not_eq_true'] at h
      dsimp only
      rw [if_neg (by intro hc; rw [hc] at h; exact absurd h (by decide))]
      exact ⟨rfl, rfl⟩
  · intro h
    unfold hasNewQueryTriple at h
    unfold setQueryRecords
    cases hl : lookupKey st.activeAnnounceQueries queryId with
    | none => rw [hl] at h; exact absurd h (by simp)
    | some ex =>
      rw [hl] at h
      simp only [Bool.not_eq_false'] at h
      dsimp only
      rw [if_pos h]

theorem broadcast_backoff_law_witness :
    (sendQueriesSched (schedIter ⟨[], 1500⟩ 2)).1 = min (1500 * 2 ^ 2) 3600000 ∧
    (setQueryRecords ⟨[], 1500⟩ "q" [⟨"n", .SRV, .IN⟩] []).2 = some 0 ∧
    (setQueryRecords ⟨[], 1500⟩ "q" [⟨"n", .SRV, .IN⟩] []).1.nextAnnounceIntervalMs =
      START_ANNOUNCE_INTERVAL_MS ∧
    setQueryRecords ⟨[("q", ⟨[⟨"n", .SRV, .IN⟩], []⟩)], 777⟩ "q" [⟨"n", .SRV, .IN⟩] [] =
      (⟨[("q", ⟨[⟨"n", .SRV, .IN⟩], []⟩)], 777⟩, none) := by
  have h1 := broadcast_backoff_law ⟨[], 1500⟩ 2 "q" [⟨"n", .SRV, .IN⟩] []
  have h2 := broadcast_backoff_law
    (⟨[("q", ⟨[⟨"n", .SRV, .IN⟩], []⟩)], 777⟩ : SchedState) 0 "q" [⟨"n", .SRV, .IN⟩] []
  exact ⟨h1.1 rfl, (h1.2.1 (by decide)).1, (h1.2.1 (by decide)).2, h2.2.2 (by decide)⟩

/-! ## Broadcast assembly (`#sendQueries`, lines 152-202)

The DNS codec is external; an answer is represented by the length of its
encoding (`DnsCodec.encodeRecord(...).length`) and `emptyLen` stands for
`DnsCodec.encode` of the message holding all queries and no answers
(line 163). -/

structure Fragment where
  messageType : DnsMessageType
  queries : List DnsQuery
  answers : List Nat
deriving Repr, DecidableEq

/-- The packing loop of lines 166-197 plus the final send of lines 199-201:
`size` is the running `dnsMessageSize`, `curQueries`/`curAnswers` the mutable
message being built.  When the next answer would overflow, the current message
is sent as `TruncatedQuery` and reset — clearing its queries
(`dnsMessageDataToSend.queries.length = 0`, line 189) and restarting the size
at `emptyLen + nextAnswer` (line 191) — before the answer is pushed.  The
last message is always sent as `Query`. -/
def sendLoop (maxSize emptyLen : Nat) :
    List Nat → List DnsQuery → List Nat → Nat → List Fragment
  | [], curQueries, curAnswers, _ =>
    [{ messageType := .Query, queries := curQueries, answers := curAnswers }]
  | nextAnswer :: rest, curQueries, curAnswers, size =>
    if size + nextAnswer > maxSize then
      { messageType := .TruncatedQuery, queries := curQueries, answers := curAnswers } ::
        sendLoop maxSize emptyLen rest [] [nextAnswer] (emptyLen + nextAnswer)
    else
      sendLoop maxSize emptyLen rest curQueries (curAnswers ++ [nextAnswer])
        (size + nextAnswer)

/-- `#sendQueries` starting state (lines 152-164): all flattened queries, no
answers, size = encoded empty message. -/
def sendQueriesFragments (maxSize emptyLen : Nat) (queries : List DnsQuery)
    (answerLens : List Nat) : List Fragment :=
  sendLoop maxSize emptyLen answerLens queries [] emptyLen

/-- The length of the datagram a fragment encodes to: header plus question
section (`emptyLen` while the queries are still carried, the smaller
`emptyLenNoQueries` after the reset cleared them) plus the answer records. -/
def fragmentEncodedSize (emptyLen emptyLenNoQueries : Nat) (f : Fragment) : Nat :=
  (if f.queries.isEmpty then emptyLenNoQueries else emptyLen) + f.answers.sum

theorem sendLoop_head_queries (maxSize emptyLen : Nat) :
    ∀ (l : List Nat) (q : List DnsQuery) (a : List Nat) (s : Nat),
      ((sendLoop maxSize emptyLen l q a s).head?).map Fragment.queries = some q := by
  intro l
  induction l with
  | nil => intro q a s; rfl
  | cons n rest ih =>
    intro q a s
    simp only [sendLoop]
    split
    · rfl
    · exact ih q (a ++ [n]) (s + n)

theorem sendLoop_nil_queries (maxSize emptyLen : Nat) :
    ∀ (l : List Nat) (a : List Nat) (s : Nat),
      ∀ f ∈ sendLoop maxSize emptyLen l [] a s, f.queries = [] := by
  intro l
  induction l with
  | nil =>
    intro a s f hf
    rcases List.mem_singleton.mp hf with rfl
    rfl
  | cons n rest ih =>
    intro a s f hf
    simp only [sendLoop] at hf
    split at hf
    · rcases List.mem_cons.mp hf with rfl | hf
      · rfl
      · exact ih [n] (emptyLen + n) f hf
    · exact ih (a ++ [n]) (s + n) f hf

theorem sendLoop_tail_queries (maxSize emptyLen : Nat) :
    ∀ (l : List Nat) (q : List DnsQuery) (a : List Nat) (s : Nat),
      ∀ f ∈ (sendLoop maxSize emptyLen l q a s).tail, f.queries = [] := by
  intro l
  induction l with
  | nil => intro q a s f hf; exact absurd hf (List.not_mem_nil f)
  | cons n rest ih =>
    intro q a s f hf
    simp only [sendLoop] at hf
    split at hf
    · exact sendLoop_nil_queries maxSize emptyLen rest [n] (emptyLen + n) f
        (by simpa using hf)
    · exact ih q (a ++ [n]) (s + n) f hf

theorem sendLoop_types (maxSize emptyLen : Nat) :
    ∀ (l : List Nat) (q : List DnsQuery) (a : List Nat) (s : Nat),
      ∃ init finalFrag,
        sendLoop maxSize emptyLen l q a s = init ++ [finalFrag] ∧
        finalFrag.messageType = .Query ∧
        ∀ f ∈ init, f.messageType = .TruncatedQuery := by
  intro l
  induction l with
  | nil =>
    intro q a s
    exact ⟨[], { messageType := .Query, queries := q, answers := a }, rfl, rfl,
      fun f hf => absurd hf (List.not_mem_nil f)⟩
  | cons n rest ih =>
    intro q a s
    simp only [sendLoop]
    split
    · obtain ⟨init, finalFrag, heq, hQ, hT⟩ := ih [] [n] (emptyLen + n)
      refine ⟨{ messageType := .TruncatedQuery, queries := q, answers := a } :: init,
        finalFrag, ?_, hQ, ?_⟩
      · rw [heq, List.cons_append]
      · intro f hf
        rcases List.mem_cons.mp hf with rfl | hf
        · rfl
        · exact hT f hf
    · exact ih q (a ++ [n]) (s + n)

theorem sendLoop_size_bound (maxSize emptyLen : Nat) :
    ∀ (l : List Nat) (q : List DnsQuery) (a : List Nat) (s : Nat),
      s = emptyLen + a.sum → s ≤ maxSize → (∀ x ∈ l, emptyLen + x ≤ maxSize) →
      ∀ f ∈ sendLoop maxSize emptyLen l q a s,
        emptyLen + f.answers.sum ≤ maxSize := by
  intro l
  induction l with
  | nil =>
    intro q a s hs hle _ f hf
    rcases List.mem_singleton.mp hf with rfl
    simpa [← hs] using hle
  | cons n rest ih =>
    intro q a s hs hle hans f hf
    simp only [sendLoop] at hf
    split at hf
    · rcases List.mem_cons.mp hf with rfl | hf
      · simpa [← hs] using hle
      · refine ih [] [n] (emptyLen + n) (by simp) ?_ ?_ f hf
        · exact hans n (List.mem_cons_self _ _)
        · intro x hx; exact hans x (List.mem_cons_of_mem _ hx)
    · refine ih q (a ++ [n]) (s + n) ?_ ?_ ?_ f hf
      · rw [hs]; simp [List.sum_append]; omega
      · omega
      · intro x hx; exact hans x (List.mem_cons_of_mem _ hx)

/-- Three concrete PTR queries, as in scenario S5. -/
def sampleQueries : List DnsQuery :=
  [{ name := "_matterc._udp.local", recordType := .PTR, recordClass := .IN },
   { name := "_V65521._sub._matterc._udp.local", recordType := .PTR, recordClass := .IN },
   { name := "_CM._sub._matterc._udp.local", recordType := .PTR, recordClass := .IN }]

/-- C2 counterexample: with 3 queries and 60 pre-encoded 600-byte known
answers (scenario S5, empty-message size 100, limit 1500) the broadcast emits
30 datagrams, and only the first carries the queries — the reset of line 189
clears the question section, so the remaining 29 fragments carry none, not
"all of the flattened queries". -/
theorem broadcast_fragments_lose_queries :
    ((sendQueriesFragments 1500 100 sampleQueries (List.replicate 60 600)).map
        (fun f => f.queries)) = sampleQueries :: List.replicate 29 [] ∧
    (sendQueriesFragments 1500 100 sampleQueries (List.replicate 60 600)).length = 30 ∧
    ([] : List DnsQuery) ≠ sampleQueries := by
  refine ⟨by decide, by decide, by decide⟩

/-- C2 (amended): each broadcast's first fragment carries all of the flattened
queries of the active query set; every subsequent fragment carries an empty
question section. -/
theorem broadcast_first_fragment_carries_queries :
    ∀ (maxSize emptyLen : Nat) (queries : List DnsQuery) (answerLens : List Nat),
      ((sendQueriesFragments maxSize emptyLen queries answerLens).head?).map
          Fragment.queries = some queries ∧
      ((sendQueriesFragments maxSize emptyLen queries answerLens).tail).all
          (fun f => f.queries.isEmpty) = true := by
  intro maxSize emptyLen queries answerLens
  constructor
  · exact sendLoop_head_queries maxSize emptyLen answerLens queries [] emptyLen
  · rw [List.all_eq_true]
    intro f hf
    have := sendLoop_tail_queries maxSize emptyLen answerLens queries [] emptyLen f hf
    simp [this]

/-- C7 counterexample: a single known answer whose encoding is 2000 bytes
(larger than `MAX_MDNS_MESSAGE_SIZE = 1500`) is sent anyway — the source logs
a warning and transmits — so the final datagram measures 2050 bytes and the
packet bound is violated (the claim holds only when every answer fits). -/
theorem broadcast_oversized_answer_exceeds_bound :
    ((sendQueriesFragments 1500 100 sampleQueries [2000]).map
        (fragmentEncodedSize 100 50)) = [100, 2050] ∧ (2050 : Nat) > 1500 := by
  refine ⟨by decide, by decide⟩

/-- C7 (amended): whenever the encoded empty message fits the limit and every
known answer fits a message of its own (`emptyLen + answer ≤ maxSize`), no
emitted datagram exceeds `MAX_MDNS_MESSAGE_SIZE`; unconditionally, the
fragments of a multi-fragment broadcast all carry `TruncatedQuery` except the
last, which carries `Query`. -/
theorem broadcast_fragments_bounded_and_typed :
    ∀ (maxSize emptyLen emptyLenNoQueries : Nat) (queries : List DnsQuery)
      (answerLens : List Nat),
      emptyLenNoQueries ≤ emptyLen → emptyLen ≤ maxSize →
      (∀ x ∈ answerLens, emptyLen + x ≤ maxSize) →
      (∀ f ∈ sendQueriesFragments maxSize emptyLen queries answerLens,
        fragmentEncodedSize emptyLen emptyLenNoQueries f ≤ maxSize) ∧
      (∃ init finalFrag,
        sendQueriesFragments maxSize emptyLen queries answerLens =
          init ++ [finalFrag] ∧
        finalFrag.messageType = .Query ∧
        ∀ f ∈ init, f.messageType = .TruncatedQuery) := by
  intro maxSize emptyLen emptyLenNoQueries queries answerLens hNoQ hEmpty hAns
  constructor
  · intro f hf
    have hb := sendLoop_size_bound maxSize emptyLen answerLens queries [] emptyLen
      (by simp) hEmpty hAns f hf
    unfold fragmentEncodedSize
    split
    · omega
    · omega
  · exact sendLoop_types maxSize emptyLen answerLens queries [] emptyLen

theorem broadcast_fragments_bounded_and_typed_witness :
    (50 ≤ (100 : Nat)) ∧ (100 ≤ (1500 : Nat)) ∧
    (∀ x ∈ [600, 600, 600], (100 : Nat) + x ≤ 1500) ∧
    ((∀ f ∈ sendQueriesFragments 1500 100 sampleQueries [600, 600, 600],
        fragmentEncodedSize 100 50 f ≤ 1500) ∧
      (∃ init finalFrag,
        sendQueriesFragments 1500 100 sampleQueries [600, 600, 600] =
          init ++ [finalFrag] ∧
        finalFrag.messageType = .Query ∧
        ∀ f ∈ init, f.messageType = .TruncatedQuery)) := by
  refine ⟨by decide, by decide, by decide, ?_⟩
  exact broadcast_fragments_bounded_and_typed 1500 100 50 sampleQueries [600, 600, 600]
    (by decide) (by decide) (by decide)

/-! ## Operational device cache (`#handleOperationalSrvRecord`, lines 779-847,
and `#expire`, lines 1019-1046) -/

/-- An operational address entry.  The operational SRV handler writes
`discoveredAt` but never writes `ttl` (unlike the commissionable path,
lines 930-931, which sets both), so `ttl` stays `undefined` for every
operational address. -/
structure OperationalAddress where
  ip : String
  port : Nat
  discoveredAt : Int := 0
  ttl : Option Int := none
deriving Repr, DecidableEq

structure OperationalDevice where
  deviceIdentifier : String
  addresses : List (String × OperationalAddress)
  discoveredAt : Int
  ttl : Int
deriving Repr, DecidableEq

structure DnsIpRecord where
  name : String
  recordType : DnsRecordType
  value : String
  ttl : Int
deriving Repr, DecidableEq

/-- `#handleIpRecords` (lines 695-709): the A/AAAA answers for the SRV target,
link-local IPv6 literals tagged with the receiving interface. -/
def handleIpRecords (enableIpv4 : Bool) (answers : List DnsIpRecord)
    (target netInterface : String) : List (String × Int) :=
  (answers.filter fun r =>
      ((r.recordType == .A && enableIpv4) || r.recordType == .AAAA) &&
        r.name == target).map
    fun r =>
      (if startsWithStr r.value "fe80::" then r.value ++ "%" ++ netInterface
       else r.value,
       r.ttl)

/-- The address update of `#handleOperationalSrvRecord` (lines 811-824): a
zero-TTL address record deletes the address; otherwise the entry is fetched or
created and its `discoveredAt` is assigned `Time.nowMs() + ttl * 1000`
(line 821); no `ttl` field is ever assigned. -/
def updateOperationalAddresses (now : Int) (port : Nat) (ips : List (String × Int))
    (addresses : List (String × OperationalAddress)) :
    List (String × OperationalAddress) :=
  ips.foldl
    (fun addrs ipttl =>
      if ipttl.2 = 0 then eraseKey addrs ipttl.1
      else
        let matterServer := (lookupKey addrs ipttl.1).getD
          { ip := ipttl.1, port := port, discoveredAt := 0, ttl := none }
        let matterServer := { matterServer with discoveredAt := now + ipttl.2 * 1000 }
        setKey addrs matterServer.ip matterServer)
    addresses

/-- The cache update of `#handleOperationalSrvRecord` (lines 779-847), without
its waiter and follow-up-query side effects. -/
def handleOperationalSrvRecord (now : Int) (enableIpv4 : Bool)
    (matterName : String) (ttl : Int) (target : String) (port : Nat)
    (answers formerAnswers : List DnsIpRecord) (netInterface : String)
    (records : List (String × OperationalDevice)) :
    List (String × OperationalDevice) :=
  if ttl = 0 then eraseKey records matterName
  else
    let ips := handleIpRecords enableIpv4 (answers ++ formerAnswers) target netInterface
    let device := (lookupKey records matterName).getD
      { deviceIdentifier := matterName, addresses := [], discoveredAt := now,
        ttl := ttl * 1000 }
    let addresses := updateOperationalAddresses now port ips device.addresses
    if ips.length > 0 then
      setKey records matterName { device with addresses := addresses }
    else records

/-- The per-address liveness test of the sweep (lines 1024-1027): JavaScript
`now < discoveredAt + ttl`; with `ttl` `undefined` the sum is NaN and a
comparison against NaN is false, so the address counts as expired. -/
def addressAlive (now : Int) (a : OperationalAddress) : Bool :=
  match a.ttl with
  | some t => now < a.discoveredAt + t
  | none => false

/-- `#expire` over the operational records (lines 1021-1032): a device whose
own lifetime has lapsed, or whose addresses are all expired, is removed. -/
def expireOperational (now : Int) (records : List (String × OperationalDevice)) :
    List (String × OperationalDevice) :=
  records.filterMap fun kv =>
    let expires := kv.2.discoveredAt + kv.2.ttl
    let addresses :=
      if now < expires then kv.2.addresses.filter (fun a => addressAlive now a.2)
      else kv.2.addresses
    if now ≥ expires || addresses.isEmpty then none
    else some (kv.1, { kv.2 with addresses := addresses })

/-- C1: evaluation of the code at the failing input.  An operational SRV
record with TTL 120 s accompanied by an AAAA record with TTL 90 s, received at
`now = 0`, stores the address with `discoveredAt = 90000` (`now + ttl·1000`,
not `now`) and no `ttl` at all (the operational path never assigns it); the
next sweep at `now = 60000` then removes the address — and with it the device
— even though the claimed expiry `discoveredAt + ttl = 90000` ms has not been
reached. -/
theorem operational_address_dropped_by_first_sweep :
    (handleOperationalSrvRecord 0 false "A1B2._matter._tcp.local" 120 "host.local" 5540
        [{ name := "host.local", recordType := .AAAA, value := "fd00::1", ttl := 90 }] []
        "eth0" []).map
        (fun kv => (kv.1, kv.2.addresses.map fun a => (a.1, a.2.discoveredAt, a.2.ttl)))
      = [("A1B2._matter._tcp.local", [("fd00::1", (90000 : Int), (none : Option Int))])] ∧
    expireOperational 60000
      (handleOperationalSrvRecord 0 false "A1B2._matter._tcp.local" 120 "host.local" 5540
        [{ name := "host.local", recordType := .AAAA, value := "fd00::1", ttl := 90 }] []
        "eth0" []) = [] := by
  refine ⟨by decide, by decide⟩
